import Mathlib

/-!
Verification of the odds / prediction models of the football-api repository.

The file embeds the pure model functions of `src/server/models/poisson-odds.ts`
and `src/server/models/elo-predictions.ts` and proves the spec's claims about
them.  Rational-arithmetic functions are embedded over `ℚ` (so they stay
executable); functions involving `Math.exp` / `Math.pow` with real exponents
are embedded over `ℝ`.
-/

namespace PoissonOdds

/-- The `TeamStats` interface of poisson-odds.ts.  The `home*`/`away*` split
fields are optional in TypeScript, hence `Option ℚ` here. -/
structure TeamStats where
  goalsScored : ℚ
  goalsConceded : ℚ
  matchesPlayed : ℚ
  homeGoalsScored : Option ℚ := none
  homeGoalsConceded : Option ℚ := none
  awayGoalsScored : Option ℚ := none
  awayGoalsConceded : Option ℚ := none
  homeMatchesPlayed : Option ℚ := none
  awayMatchesPlayed : Option ℚ := none

/-- The `leagueAverage` parameter record of `calculateExpectedGoals`. -/
structure LeagueAverage where
  goalsPerMatch : ℚ
  homeAdvantage : ℚ

/-- The default `leagueAverage` argument: goalsPerMatch 2.7, homeAdvantage 1.3. -/
def defaultLeagueAverage : LeagueAverage := { goalsPerMatch := 27/10, homeAdvantage := 13/10 }

/-- JavaScript `a || b` on an optional numeric field: an absent field and the
number `0` are both falsy, so both fall through to the default. -/
def jsOr : Option ℚ → ℚ → ℚ
  | none, d => d
  | some v, d => if v = 0 then d else v

/-- `calculateExpectedGoals` of poisson-odds.ts. -/
def calculateExpectedGoals (teamStats opponentStats : TeamStats) (isHome : Bool)
    (leagueAverage : LeagueAverage := defaultLeagueAverage) : ℚ :=
  let matchesPlayed := if isHome
    then jsOr teamStats.homeMatchesPlayed teamStats.matchesPlayed
    else jsOr teamStats.awayMatchesPlayed teamStats.matchesPlayed
  let goalsScored := if isHome
    then jsOr teamStats.homeGoalsScored teamStats.goalsScored
    else jsOr teamStats.awayGoalsScored teamStats.goalsScored
  let opponentGoalsConceded := if isHome
    then jsOr opponentStats.awayGoalsConceded opponentStats.goalsConceded
    else jsOr opponentStats.homeGoalsConceded opponentStats.goalsConceded
  let opponentMatchesPlayed := if isHome
    then jsOr opponentStats.awayMatchesPlayed opponentStats.matchesPlayed
    else jsOr opponentStats.homeMatchesPlayed opponentStats.matchesPlayed
  if matchesPlayed < 3 ∨ opponentMatchesPlayed < 3 then
    leagueAverage.goalsPerMatch * (if isHome then leagueAverage.homeAdvantage else 1) / 2
  else
    let attackStrength := (goalsScored / matchesPlayed) / (leagueAverage.goalsPerMatch / 2)
    let defenseStrength :=
      (opponentGoalsConceded / opponentMatchesPlayed) / (leagueAverage.goalsPerMatch / 2)
    let homeAdvantage := if isHome then leagueAverage.homeAdvantage else 1
    let expectedGoals :=
      attackStrength * defenseStrength * (leagueAverage.goalsPerMatch / 2) * homeAdvantage
    max (2/10) (min 5 expectedGoals)

/-- `probabilityToOdds` of poisson-odds.ts. -/
def probabilityToOdds (probability : ℚ) : ℚ :=
  if probability ≤ 0 ∨ 1 ≤ probability then 101/100
  else max (101/100) (1 / probability)

end PoissonOdds

namespace PoissonOdds

/-- Statistics with all-zero aggregates and no split fields, used as a concrete
insufficient-data input. -/
def emptyStats : TeamStats :=
  { goalsScored := 0, goalsConceded := 0, matchesPlayed := 0 }

/-- C1 counterexample input: a league-average configuration with 20 goals per
match and no home advantage. -/
def bigLeague : LeagueAverage := { goalsPerMatch := 20, homeAdvantage := 1 }

/-- C1 counterexample: with `leagueAverage = ⟨20, 1⟩` and a team with no
matches played, the low-data fallback branch of `calculateExpectedGoals`
returns `10`, which is outside `[0.2, 5.0]`; so the clamp claim fails for
arbitrary league-average configurations. -/
theorem calculateExpectedGoals_clamp_cex :
    calculateExpectedGoals emptyStats emptyStats false bigLeague = 10 ∧
    ¬ calculateExpectedGoals emptyStats emptyStats false bigLeague ≤ 5 := by
  norm_num [calculateExpectedGoals, emptyStats, bigLeague, jsOr]

/-- C1 (amended): whenever the league-average fallback value
`goalsPerMatch * (isHome ? homeAdvantage : 1) / 2` itself lies in
`[0.2, 5.0]` — as it does for the default configuration — the result of
`calculateExpectedGoals` lies in `[0.2, 5.0]` for every pair of team
statistics and every `isHome` flag: the main branch is always clamped and
the low-data fallback branch returns exactly that fallback value. -/
theorem calculateExpectedGoals_range (ts os : TeamStats) (isHome : Bool) (la : LeagueAverage)
    (h1 : 2/10 ≤ la.goalsPerMatch * (if isHome then la.homeAdvantage else 1) / 2)
    (h2 : la.goalsPerMatch * (if isHome then la.homeAdvantage else 1) / 2 ≤ 5) :
    2/10 ≤ calculateExpectedGoals ts os isHome la ∧
    calculateExpectedGoals ts os isHome la ≤ 5 := by
  have key : ∀ x : ℚ, 2/10 ≤ max (2/10) (min 5 x) ∧ max (2/10) (min 5 x) ≤ 5 :=
    fun x => ⟨le_max_left _ _, max_le (by norm_num) (min_le_left _ _)⟩
  unfold calculateExpectedGoals
  dsimp only
  by_cases hC : (if isHome then jsOr ts.homeMatchesPlayed ts.matchesPlayed
      else jsOr ts.awayMatchesPlayed ts.matchesPlayed) < 3 ∨
      (if isHome then jsOr os.awayMatchesPlayed os.matchesPlayed
      else jsOr os.homeMatchesPlayed os.matchesPlayed) < 3
  · rw [if_pos hC]
    exact ⟨h1, h2⟩
  · rw [if_neg hC]
    exact key _

/-- Witness for C1: the default league average satisfies the fallback-range
hypotheses for both values of `isHome`, and the conclusion holds at a
concrete input. -/
theorem calculateExpectedGoals_range_witness :
    2/10 ≤ calculateExpectedGoals emptyStats emptyStats true defaultLeagueAverage ∧
    calculateExpectedGoals emptyStats emptyStats true defaultLeagueAverage ≤ 5 :=
  calculateExpectedGoals_range emptyStats emptyStats true defaultLeagueAverage
    (by norm_num [defaultLeagueAverage]) (by norm_num [defaultLeagueAverage])

/-- C2 counterexample input: home split fields present, but `homeGoalsScored`
present with the value `0` (which JavaScript `||` treats as absent). -/
def c2TeamA : TeamStats :=
  { goalsScored := 10, goalsConceded := 0, matchesPlayed := 10,
    homeGoalsScored := some 0, homeMatchesPlayed := some 10 }

/-- Same as `c2TeamA` except for the aggregate `goalsScored` field. -/
def c2TeamB : TeamStats :=
  { goalsScored := 20, goalsConceded := 0, matchesPlayed := 10,
    homeGoalsScored := some 0, homeMatchesPlayed := some 10 }

/-- C2 counterexample opponent: away split fields present and nonzero. -/
def c2Opp : TeamStats :=
  { goalsScored := 0, goalsConceded := 10, matchesPlayed := 10,
    awayGoalsConceded := some 10, awayMatchesPlayed := some 10 }

/-- C2 counterexample: `c2TeamA` and `c2TeamB` have all the home-side split
fields present (`homeGoalsScored = some 0`, `homeMatchesPlayed = some 10`)
and differ only in the aggregate `goalsScored`, yet `calculateExpectedGoals`
gives different results, because the JavaScript `||` fallback treats the
present-but-zero `homeGoalsScored` as absent and reads the aggregate. -/
theorem calculateExpectedGoals_splits_cex :
    calculateExpectedGoals c2TeamA c2Opp true defaultLeagueAverage ≠
    calculateExpectedGoals c2TeamB c2Opp true defaultLeagueAverage := by
  norm_num [calculateExpectedGoals, c2TeamA, c2TeamB, c2Opp, defaultLeagueAverage, jsOr]

/-- C2 (amended): when the venue-specific split fields relevant to the chosen
side are present *and nonzero*, `calculateExpectedGoals` computes its result
from those split fields only: any two pairs of inputs agreeing on these
split values (in particular, inputs differing only in the aggregate
`goalsScored`, `goalsConceded`, `matchesPlayed` fields) give the same
result. -/
theorem calculateExpectedGoals_uses_splits (ts os ts' os' : TeamStats) (isHome : Bool)
    (la : LeagueAverage) (g m c mo : ℚ)
    (hg : g ≠ 0) (hm : m ≠ 0) (hc : c ≠ 0) (hmo : mo ≠ 0)
    (h1 : (if isHome then ts.homeGoalsScored else ts.awayGoalsScored) = some g)
    (h2 : (if isHome then ts.homeMatchesPlayed else ts.awayMatchesPlayed) = some m)
    (h3 : (if isHome then os.awayGoalsConceded else os.homeGoalsConceded) = some c)
    (h4 : (if isHome then os.awayMatchesPlayed else os.homeMatchesPlayed) = some mo)
    (h1' : (if isHome then ts'.homeGoalsScored else ts'.awayGoalsScored) = some g)
    (h2' : (if isHome then ts'.homeMatchesPlayed else ts'.awayMatchesPlayed) = some m)
    (h3' : (if isHome then os'.awayGoalsConceded else os'.homeGoalsConceded) = some c)
    (h4' : (if isHome then os'.awayMatchesPlayed else os'.homeMatchesPlayed) = some mo) :
    calculateExpectedGoals ts os isHome la = calculateExpectedGoals ts' os' isHome la := by
  unfold calculateExpectedGoals
  cases isHome <;>
    simp_all [jsOr]

/-- Witness for C2: two concrete stat pairs differing in every aggregate field
but sharing nonzero split values give equal results. -/
theorem calculateExpectedGoals_uses_splits_witness :
    (10 : ℚ) ≠ 0 ∧
    calculateExpectedGoals
      { goalsScored := 1, goalsConceded := 2, matchesPlayed := 3,
        homeGoalsScored := some 10, homeMatchesPlayed := some 10 }
      { goalsScored := 4, goalsConceded := 5, matchesPlayed := 6,
        awayGoalsConceded := some 10, awayMatchesPlayed := some 10 }
      true defaultLeagueAverage =
    calculateExpectedGoals
      { goalsScored := 7, goalsConceded := 8, matchesPlayed := 9,
        homeGoalsScored := some 10, homeMatchesPlayed := some 10 }
      { goalsScored := 11, goalsConceded := 12, matchesPlayed := 13,
        awayGoalsConceded := some 10, awayMatchesPlayed := some 10 }
      true defaultLeagueAverage := by
  refine ⟨by norm_num, ?_⟩
  exact calculateExpectedGoals_uses_splits _ _ _ _ true defaultLeagueAverage 10 10 10 10
    (by norm_num) (by norm_num) (by norm_num) (by norm_num)
    rfl rfl rfl rfl rfl rfl rfl rfl

/-- C9: `probabilityToOdds` equals `max 1.01 (1/p)` on `(0,1)`, returns
exactly `1.01` outside `(0,1)`, and is always at least `1.01`. -/
theorem probabilityToOdds_spec (p : ℚ) :
    (0 < p → p < 1 → probabilityToOdds p = max (101/100) (1 / p)) ∧
    ((p ≤ 0 ∨ 1 ≤ p) → probabilityToOdds p = 101/100) ∧
    101/100 ≤ probabilityToOdds p := by
  refine ⟨?_, ?_, ?_⟩
  · intro hp0 hp1
    unfold probabilityToOdds
    rw [if_neg]
    push_neg
    exact ⟨hp0, hp1⟩
  · intro h
    unfold probabilityToOdds
    rw [if_pos h]
  · unfold probabilityToOdds
    split
    · exact le_refl _
    · exact le_max_left _ _

/-- Witness for C9: at `p = 1/2` the odds are `max 1.01 2 = 2`, and at
`p = 0` the floor `1.01` is returned. -/
theorem probabilityToOdds_spec_witness :
    probabilityToOdds (1/2) = max (101/100) (1 / (1/2 : ℚ)) ∧
    probabilityToOdds 0 = 101/100 :=
  ⟨(probabilityToOdds_spec (1/2)).1 (by norm_num) (by norm_num),
   (probabilityToOdds_spec 0).2.1 (Or.inl le_rfl)⟩

end PoissonOdds

namespace EloPredictions

/-- The `DEFAULT_ELO_CONFIG` constant of elo-predictions.ts. -/
structure ELOConfig where
  initialRating : ℝ
  kFactor : ℝ
  homeAdvantage : ℝ
  minRating : ℝ
  maxRating : ℝ

/-- Default ELO configuration values. -/
noncomputable def DEFAULT_ELO_CONFIG : ELOConfig :=
  { initialRating := 1500, kFactor := 32, homeAdvantage := 100,
    minRating := 1000, maxRating := 2500 }

/-- `calculateExpectedScore` of elo-predictions.ts:
`1 / (1 + 10 ^ ((ratingB - adjustedRatingA) / 400))` with a +100 home bonus. -/
noncomputable def calculateExpectedScore (ratingA ratingB : ℝ)
    (isHomeTeam : Bool := false) : ℝ :=
  let homeBonus := if isHomeTeam then DEFAULT_ELO_CONFIG.homeAdvantage else 0
  let adjustedRatingA := ratingA + homeBonus
  let exponent := (ratingB - adjustedRatingA) / 400
  1 / (1 + (10 : ℝ) ^ exponent)

/-- `updateELORating` of elo-predictions.ts.  The TypeScript `kFactor`
parameter is optional with default `DEFAULT_ELO_CONFIG.kFactor`; an omitted /
undefined argument is modelled as `none`. -/
noncomputable def updateELORating (currentRating expectedScore actualScore : ℝ)
    (kFactor : Option ℝ := none) : ℝ :=
  let k := kFactor.getD DEFAULT_ELO_CONFIG.kFactor
  let newRating := currentRating + k * (actualScore - expectedScore)
  max DEFAULT_ELO_CONFIG.minRating (min DEFAULT_ELO_CONFIG.maxRating newRating)

/-- The `MatchResult` interface. -/
structure MatchResult where
  homeGoals : ℤ
  awayGoals : ℤ

/-- Return value of `getActualScores`. -/
structure ScorePair where
  home : ℝ
  away : ℝ

/-- `getActualScores` of elo-predictions.ts. -/
noncomputable def getActualScores (result : MatchResult) : ScorePair :=
  if result.homeGoals > result.awayGoals then ⟨1, 0⟩
  else if result.homeGoals < result.awayGoals then ⟨0, 1⟩
  else ⟨1/2, 1/2⟩

/-- Return value of `updateMatchRatings`. -/
structure RatingPair where
  homeRating : ℝ
  awayRating : ℝ

/-- `updateMatchRatings` of elo-predictions.ts. -/
noncomputable def updateMatchRatings (homeRating awayRating : ℝ) (result : MatchResult)
    (kFactor : Option ℝ := none) : RatingPair :=
  let homeExpected := calculateExpectedScore homeRating awayRating true
  let awayExpected := calculateExpectedScore awayRating homeRating false
  let actualScores := getActualScores result
  ⟨updateELORating homeRating homeExpected actualScores.home kFactor,
   updateELORating awayRating awayExpected actualScores.away kFactor⟩

/-- Return value of `calculateWinProbabilities`. -/
structure WinProbs where
  home : ℝ
  draw : ℝ
  away : ℝ

/-- `calculateWinProbabilities` of elo-predictions.ts. -/
noncomputable def calculateWinProbabilities (homeRating awayRating : ℝ) : WinProbs :=
  let homeExpected := calculateExpectedScore homeRating awayRating true
  let awayExpected := 1 - homeExpected
  let ratingDiff := |homeRating - awayRating|
  let drawProb := max 0.15 (min 0.35 (0.30 - ratingDiff / 1000))
  let homeWinProb := homeExpected * (1 - drawProb)
  let awayWinProb := awayExpected * (1 - drawProb)
  let total := homeWinProb + drawProb + awayWinProb
  ⟨homeWinProb / total, drawProb / total, awayWinProb / total⟩

/-- Return value of `predictGoals`. -/
structure GoalsPair where
  home : ℝ
  away : ℝ

/-- `predictGoals` of elo-predictions.ts. -/
noncomputable def predictGoals (homeRating awayRating : ℝ)
    (leagueAverage : ℝ := 2.7) : GoalsPair :=
  let ratingDiff := homeRating - awayRating
  let baseGoals := leagueAverage / 2
  let homeAdjustment := ratingDiff / 200 * 0.5
  let awayAdjustment := -(ratingDiff / 200) * 0.5
  ⟨max 0.5 (min 4.0 (baseGoals + homeAdjustment)),
   max 0.5 (min 4.0 (baseGoals + awayAdjustment))⟩

end EloPredictions

namespace EloPredictions

/-- The bounds predicate on an ELO rating: the rating lies within the
configured clamp bounds `[1000, 2500]`. -/
def ratingInBounds (r : ℝ) : Prop := 1000 ≤ r ∧ r ≤ 2500

/-- A sequence of match-rating updates applied to a pair of ratings, each
match carrying its result and optional k-factor. -/
noncomputable def applyMatches (p : ℝ × ℝ) (ms : List (MatchResult × Option ℝ)) : ℝ × ℝ :=
  ms.foldl (fun q rm =>
    ((updateMatchRatings q.1 q.2 rm.1 rm.2).homeRating,
     (updateMatchRatings q.1 q.2 rm.1 rm.2).awayRating)) p

/-- Any single ELO update lands inside the clamp bounds. -/
lemma updateELORating_mem (r E S : ℝ) (k : Option ℝ) :
    ratingInBounds (updateELORating r E S k) := by
  unfold ratingInBounds updateELORating DEFAULT_ELO_CONFIG
  dsimp only
  exact ⟨le_max_left _ _, max_le (by norm_num) (min_le_left _ _)⟩

/-- C4: every `updateELORating` result lies in `[1000, 2500]`; both components
of `updateMatchRatings` lie in `[1000, 2500]`; and the in-bounds predicate is
an invariant preserved by any sequence of match updates. -/
theorem elo_clamp_invariant :
    (∀ (r E S : ℝ) (k : Option ℝ), ratingInBounds (updateELORating r E S k)) ∧
    (∀ (hr ar : ℝ) (res : MatchResult) (k : Option ℝ),
      ratingInBounds (updateMatchRatings hr ar res k).homeRating ∧
      ratingInBounds (updateMatchRatings hr ar res k).awayRating) ∧
    (∀ p : ℝ × ℝ, ratingInBounds p.1 ∧ ratingInBounds p.2 →
      ∀ ms : List (MatchResult × Option ℝ),
        ratingInBounds (applyMatches p ms).1 ∧ ratingInBounds (applyMatches p ms).2) := by
  have hu : ∀ (r E S : ℝ) (k : Option ℝ), ratingInBounds (updateELORating r E S k) :=
    updateELORating_mem
  have hm : ∀ (hr ar : ℝ) (res : MatchResult) (k : Option ℝ),
      ratingInBounds (updateMatchRatings hr ar res k).homeRating ∧
      ratingInBounds (updateMatchRatings hr ar res k).awayRating := by
    intro hr ar res k
    unfold updateMatchRatings
    exact ⟨hu _ _ _ _, hu _ _ _ _⟩
  refine ⟨hu, hm, ?_⟩
  intro p hp ms
  induction ms generalizing p with
  | nil => exact hp
  | cons m tl ih =>
      unfold applyMatches
      rw [List.foldl_cons]
      exact ih _ ⟨(hm _ _ _ _).1, (hm _ _ _ _).2⟩

/-- Witness for C4: starting from the in-bounds pair `(1500, 1500)`, applying
one concrete match keeps both ratings in bounds. -/
theorem elo_clamp_invariant_witness :
    ratingInBounds (applyMatches (1500, 1500) [(⟨2, 0⟩, some 32)]).1 ∧
    ratingInBounds (applyMatches (1500, 1500) [(⟨2, 0⟩, some 32)]).2 :=
  elo_clamp_invariant.2.2 (1500, 1500)
    ⟨⟨by norm_num, by norm_num⟩, ⟨by norm_num, by norm_num⟩⟩ [(⟨2, 0⟩, some 32)]

/-- C10: when the current rating is in `[1000, 2500]`, both score arguments
are in `[0, 1]` and the k-factor is nonnegative, a single ELO update moves
the rating by at most `kFactor` in absolute value. -/
theorem updateELORating_bounded_move (r E S k : ℝ)
    (hr1 : 1000 ≤ r) (hr2 : r ≤ 2500) (hE1 : 0 ≤ E) (hE2 : E ≤ 1)
    (hS1 : 0 ≤ S) (hS2 : S ≤ 1) (hk : 0 ≤ k) :
    |updateELORating r E S (some k) - r| ≤ k := by
  unfold updateELORating DEFAULT_ELO_CONFIG
  dsimp only [Option.getD]
  have h1 : k * (S - E) ≤ k := by nlinarith
  have h2 : -k ≤ k * (S - E) := by nlinarith
  rcases le_total (r + k * (S - E)) 2500 with hc | hc
  · rw [min_eq_right hc]
    rcases le_total (r + k * (S - E)) 1000 with hd | hd
    · rw [max_eq_left hd, abs_le]
      constructor <;> linarith
    · rw [max_eq_right hd, abs_le]
      constructor <;> linarith
  · rw [min_eq_left hc, max_eq_right (by norm_num : (1000:ℝ) ≤ 2500), abs_le]
    constructor <;> linarith

/-- Witness for C10: a win with rating 1500 and expectation 0.5 moves the
rating by at most the k-factor 32. -/
theorem updateELORating_bounded_move_witness :
    |updateELORating 1500 0.5 1 (some 32) - 1500| ≤ 32 :=
  updateELORating_bounded_move 1500 0.5 1 32 (by norm_num) (by norm_num)
    (by norm_num) (by norm_num) (by norm_num) (by norm_num) (by norm_num)

/-- C8: the triple returned by `calculateWinProbabilities` sums to exactly 1,
and its draw component equals exactly
`max 0.15 (min 0.35 (0.30 - |homeRating - awayRating| / 1000))`: the
pre-normalization total is identically 1, so the renormalization step is the
identity. -/
theorem calculateWinProbabilities_sum_draw (hr ar : ℝ) :
    (calculateWinProbabilities hr ar).home + (calculateWinProbabilities hr ar).draw +
      (calculateWinProbabilities hr ar).away = 1 ∧
    (calculateWinProbabilities hr ar).draw =
      max 0.15 (min 0.35 (0.30 - |hr - ar| / 1000)) := by
  unfold calculateWinProbabilities
  dsimp only
  set E := calculateExpectedScore hr ar true with hE
  set d := max 0.15 (min 0.35 (0.30 - |hr - ar| / 1000)) with hd
  have htot : E * (1 - d) + d + (1 - E) * (1 - d) = 1 := by ring
  rw [htot]
  constructor
  · rw [div_one, div_one, div_one, htot]
  · rw [div_one]

end EloPredictions

namespace EloPredictions

/-- `10 ^ (-100/400)` is positive. -/
lemma rpow_negQuarter_pos : 0 < (10:ℝ) ^ ((-100 : ℝ) / 400) :=
  Real.rpow_pos_of_pos (by norm_num) _

/-- `10 ^ (-100/400)` is below 1 (base above 1, negative exponent). -/
lemma rpow_negQuarter_lt_one : (10:ℝ) ^ ((-100 : ℝ) / 400) < 1 :=
  Real.rpow_lt_one_of_one_lt_of_neg (by norm_num) (by norm_num)

/-- At equal ratings, the home-side expected score is
`1 / (1 + 10 ^ (-100/400))`: the rating difference cancels and only the +100
home bonus remains in the exponent. -/
lemma calculateExpectedScore_equal_home (r : ℝ) :
    calculateExpectedScore r r true = 1 / (1 + (10:ℝ) ^ ((-100 : ℝ) / 400)) := by
  unfold calculateExpectedScore DEFAULT_ELO_CONFIG
  dsimp only
  rw [if_pos rfl]
  rw [show (r - (r + (100:ℝ))) / 400 = (-100 : ℝ) / 400 by ring]

/-- At equal ratings, the away-side expected score is exactly `1/2`: the away
computation carries no home bonus, so the exponent is zero. -/
lemma calculateExpectedScore_equal_away (r : ℝ) :
    calculateExpectedScore r r false = 1 / 2 := by
  unfold calculateExpectedScore DEFAULT_ELO_CONFIG
  dsimp only
  rw [if_neg (by norm_num)]
  rw [show (r - (r + (0:ℝ))) / 400 = (0 : ℝ) by ring]
  rw [Real.rpow_zero]
  norm_num

/-- At equal ratings, the home expected score is strictly above one half. -/
lemma equal_home_gt_half (r : ℝ) : 1 / 2 < calculateExpectedScore r r true := by
  rw [calculateExpectedScore_equal_home]
  have h0 := rpow_negQuarter_pos
  have h1 := rpow_negQuarter_lt_one
  rw [lt_div_iff₀ (by linarith)]
  linarith

/-- At equal ratings, the home expected score is strictly below one. -/
lemma equal_home_lt_one (r : ℝ) : calculateExpectedScore r r true < 1 := by
  rw [calculateExpectedScore_equal_home]
  have h0 := rpow_negQuarter_pos
  rw [div_lt_one (by linarith)]
  linarith

/-- Evaluation of `updateMatchRatings` on equal ratings and a drawn result:
the home component. -/
lemma updateMatchRatings_draw_home (r k : ℝ) :
    (updateMatchRatings r r ⟨1, 1⟩ (some k)).homeRating =
      max 1000 (min 2500 (r + k * (1 / 2 - calculateExpectedScore r r true))) := by
  unfold updateMatchRatings updateELORating DEFAULT_ELO_CONFIG getActualScores
  dsimp only [Option.getD]
  rw [if_neg (by norm_num), if_neg (by norm_num)]

/-- Evaluation of `updateMatchRatings` on equal ratings and a drawn result:
the away component is the clamp of the unchanged rating. -/
lemma updateMatchRatings_draw_away (r k : ℝ) :
    (updateMatchRatings r r ⟨1, 1⟩ (some k)).awayRating = max 1000 (min 2500 r) := by
  unfold updateMatchRatings updateELORating DEFAULT_ELO_CONFIG getActualScores
  dsimp only [Option.getD]
  rw [if_neg (by norm_num), if_neg (by norm_num)]
  rw [calculateExpectedScore_equal_away]
  ring_nf

/-- C5 counterexample: take equal ratings 1500 and k-factor 32, which satisfy
all the claim's side conditions (`k > 0` and neither clamp bound binding).
The away rating after a draw is exactly 1500, not strictly above it: the away
expected score is computed without the opponent's home bonus and equals
exactly 0.5, so the away update is zero. -/
theorem draw_away_rating_cex :
    (0:ℝ) < 32 ∧
    1000 ≤ (1500:ℝ) - 32 * (calculateExpectedScore 1500 1500 true - 1 / 2) ∧
    (1500:ℝ) + 32 * (calculateExpectedScore 1500 1500 true - 1 / 2) ≤ 2500 ∧
    ¬ (1500:ℝ) < (updateMatchRatings 1500 1500 ⟨1, 1⟩ (some 32)).awayRating := by
  have h1 := equal_home_gt_half 1500
  have h2 := equal_home_lt_one 1500
  have haway : (updateMatchRatings 1500 1500 ⟨1, 1⟩ (some 32)).awayRating = 1500 := by
    rw [updateMatchRatings_draw_away]
    rw [min_eq_right (by norm_num), max_eq_right (by norm_num)]
  exact ⟨by norm_num, by linarith, by linarith, by rw [haway]; exact lt_irrefl _⟩

/-- C5 (amended): for equal ratings `r` and a drawn result, with `k > 0` and
neither clamp bound binding, the home rating strictly drops while the away
rating stays exactly equal to `r` (the away expected score carries no home
bonus and equals 0.5 at equal ratings, so a draw leaves it unchanged). -/
theorem draw_equal_ratings_update (r k : ℝ) (hk : 0 < k)
    (h1 : 1000 ≤ r - k * (calculateExpectedScore r r true - 1 / 2))
    (h2 : r + k * (calculateExpectedScore r r true - 1 / 2) ≤ 2500) :
    (updateMatchRatings r r ⟨1, 1⟩ (some k)).homeRating < r ∧
    (updateMatchRatings r r ⟨1, 1⟩ (some k)).awayRating = r := by
  have hgt := equal_home_gt_half r
  have hd : 0 < k * (calculateExpectedScore r r true - 1 / 2) := by nlinarith
  constructor
  · rw [updateMatchRatings_draw_home,
      show r + k * (1 / 2 - calculateExpectedScore r r true) =
        r - k * (calculateExpectedScore r r true - 1 / 2) by ring]
    rw [min_eq_right (by linarith), max_eq_right h1]
    linarith
  · rw [updateMatchRatings_draw_away]
    rw [min_eq_right (by linarith), max_eq_right (by linarith)]

/-- Witness for C5 (amended): at ratings 1500 and k-factor 32 the hypotheses
hold and a draw strictly lowers the home rating while leaving the away rating
at 1500. -/
theorem draw_equal_ratings_update_witness :
    (updateMatchRatings 1500 1500 ⟨1, 1⟩ (some 32)).homeRating < 1500 ∧
    (updateMatchRatings 1500 1500 ⟨1, 1⟩ (some 32)).awayRating = 1500 :=
  draw_equal_ratings_update 1500 32 (by norm_num)
    (by have h := equal_home_lt_one 1500; linarith)
    (by have h := equal_home_lt_one 1500; linarith)

end EloPredictions

namespace EloPredictions

/-- The `winner` record of a `MatchPrediction`. -/
structure WinnerInfo where
  id : Option ℤ
  name : String
  comment : String

/-- The `MatchPrediction` interface of elo-predictions.ts.  The `toFixed`
decimal string formatting of the goals and percent fields is abstracted to
the underlying numeric values, and the boolean `win_or_draw` comparison on
reals is kept as a proposition. -/
structure MatchPrediction where
  winner : WinnerInfo
  win_or_draw : Prop
  under_over : Option String
  goals : GoalsPair
  advice : String
  percentHome : ℝ
  percentDraw : ℝ
  percentAway : ℝ

open Classical in
/-- `generatePrediction` of elo-predictions.ts. -/
noncomputable def generatePrediction (homeTeamId : ℤ) (homeTeamName : String)
    (homeRating : ℝ) (awayTeamId : ℤ) (awayTeamName : String)
    (awayRating : ℝ) : MatchPrediction :=
  let probabilities := calculateWinProbabilities homeRating awayRating
  let goals := predictGoals homeRating awayRating
  let winnerAdvice : WinnerInfo × String :=
    if probabilities.home > probabilities.away ∧ probabilities.home > probabilities.draw then
      (⟨some homeTeamId, homeTeamName,
        "Home team has higher ELO rating and home advantage"⟩,
       "Bet on " ++ homeTeamName ++ " to win")
    else if probabilities.away > probabilities.home ∧
        probabilities.away > probabilities.draw then
      (⟨some awayTeamId, awayTeamName,
        "Away team has significantly higher ELO rating"⟩,
       "Bet on " ++ awayTeamName ++ " to win")
    else
      (⟨none, "Draw", "Teams are closely matched based on ELO ratings"⟩,
       "Consider draw or double chance bet")
  let win_or_draw := probabilities.home + probabilities.draw > 0.6
  let totalGoals := goals.home + goals.away
  let under_over : Option String :=
    if totalGoals > 2.5 then some "Over 2.5"
    else if totalGoals < 2.5 then some "Under 2.5"
    else none
  { winner := winnerAdvice.1,
    win_or_draw := win_or_draw,
    under_over := under_over,
    goals := goals,
    advice := winnerAdvice.2,
    percentHome := probabilities.home * 100,
    percentDraw := probabilities.draw * 100,
    percentAway := probabilities.away * 100 }

end EloPredictions

namespace EloPredictions

/-- Closed form of `calculateWinProbabilities`: the pre-normalization total is
identically 1, so each component equals its unnormalized value. -/
lemma calculateWinProbabilities_eq (hr ar : ℝ) :
    calculateWinProbabilities hr ar =
      ⟨calculateExpectedScore hr ar true *
          (1 - max 0.15 (min 0.35 (0.30 - |hr - ar| / 1000))),
        max 0.15 (min 0.35 (0.30 - |hr - ar| / 1000)),
        (1 - calculateExpectedScore hr ar true) *
          (1 - max 0.15 (min 0.35 (0.30 - |hr - ar| / 1000)))⟩ := by
  unfold calculateWinProbabilities
  dsimp only
  rw [show calculateExpectedScore hr ar true *
        (1 - max 0.15 (min 0.35 (0.30 - |hr - ar| / 1000))) +
        max 0.15 (min 0.35 (0.30 - |hr - ar| / 1000)) +
        (1 - calculateExpectedScore hr ar true) *
        (1 - max 0.15 (min 0.35 (0.30 - |hr - ar| / 1000))) = 1 by ring]
  rw [div_one, div_one, div_one]

/-- The winner/advice selection of `generatePrediction` as a standalone
conditional on the three win probabilities. -/
lemma generatePrediction_winner_eq (hid : ℤ) (hname : String) (hr : ℝ)
    (aid : ℤ) (aname : String) (ar : ℝ) :
    (generatePrediction hid hname hr aid aname ar).winner =
      if (calculateWinProbabilities hr ar).home > (calculateWinProbabilities hr ar).away ∧
          (calculateWinProbabilities hr ar).home > (calculateWinProbabilities hr ar).draw then
        ⟨some hid, hname, "Home team has higher ELO rating and home advantage"⟩
      else if (calculateWinProbabilities hr ar).away > (calculateWinProbabilities hr ar).home ∧
          (calculateWinProbabilities hr ar).away > (calculateWinProbabilities hr ar).draw then
        ⟨some aid, aname, "Away team has significantly higher ELO rating"⟩
      else ⟨none, "Draw", "Teams are closely matched based on ELO ratings"⟩ := by
  unfold generatePrediction
  dsimp only
  by_cases h1 : (calculateWinProbabilities hr ar).home > (calculateWinProbabilities hr ar).away ∧
      (calculateWinProbabilities hr ar).home > (calculateWinProbabilities hr ar).draw
  · rw [if_pos h1, if_pos h1]
  · rw [if_neg h1, if_neg h1]
    by_cases h2 : (calculateWinProbabilities hr ar).away > (calculateWinProbabilities hr ar).home ∧
        (calculateWinProbabilities hr ar).away > (calculateWinProbabilities hr ar).draw
    · rw [if_pos h2, if_pos h2]
    · rw [if_neg h2, if_neg h2]

/-- C6: `generatePrediction` names the home team as winner iff the home
probability strictly exceeds both others, the away team iff the away
probability strictly exceeds both others, and otherwise Draw (winner id
null); in particular, any tie for the maximum yields Draw. -/
theorem generatePrediction_winner_selection (hid : ℤ) (hname : String) (hr : ℝ)
    (aid : ℤ) (aname : String) (ar : ℝ) :
    ((generatePrediction hid hname hr aid aname ar).winner =
        ⟨some hid, hname, "Home team has higher ELO rating and home advantage"⟩ ↔
      (calculateWinProbabilities hr ar).home > (calculateWinProbabilities hr ar).away ∧
      (calculateWinProbabilities hr ar).home > (calculateWinProbabilities hr ar).draw) ∧
    ((generatePrediction hid hname hr aid aname ar).winner =
        ⟨some aid, aname, "Away team has significantly higher ELO rating"⟩ ↔
      ¬((calculateWinProbabilities hr ar).home > (calculateWinProbabilities hr ar).away ∧
        (calculateWinProbabilities hr ar).home > (calculateWinProbabilities hr ar).draw) ∧
      ((calculateWinProbabilities hr ar).away > (calculateWinProbabilities hr ar).home ∧
        (calculateWinProbabilities hr ar).away > (calculateWinProbabilities hr ar).draw)) ∧
    ((generatePrediction hid hname hr aid aname ar).winner =
        ⟨none, "Draw", "Teams are closely matched based on ELO ratings"⟩ ↔
      ¬((calculateWinProbabilities hr ar).home > (calculateWinProbabilities hr ar).away ∧
        (calculateWinProbabilities hr ar).home > (calculateWinProbabilities hr ar).draw) ∧
      ¬((calculateWinProbabilities hr ar).away > (calculateWinProbabilities hr ar).home ∧
        (calculateWinProbabilities hr ar).away > (calculateWinProbabilities hr ar).draw)) ∧
    (((calculateWinProbabilities hr ar).home = (calculateWinProbabilities hr ar).away ∧
        (calculateWinProbabilities hr ar).draw ≤ (calculateWinProbabilities hr ar).home) ∨
      ((calculateWinProbabilities hr ar).home = (calculateWinProbabilities hr ar).draw ∧
        (calculateWinProbabilities hr ar).away ≤ (calculateWinProbabilities hr ar).home) ∨
      ((calculateWinProbabilities hr ar).away = (calculateWinProbabilities hr ar).draw ∧
        (calculateWinProbabilities hr ar).home ≤ (calculateWinProbabilities hr ar).away) →
      (generatePrediction hid hname hr aid aname ar).winner =
        ⟨none, "Draw", "Teams are closely matched based on ELO ratings"⟩) := by
  rw [generatePrediction_winner_eq]
  set p := calculateWinProbabilities hr ar with hp
  refine ⟨?_, ?_, ?_, ?_⟩
  · by_cases h1 : p.home > p.away ∧ p.home > p.draw
    · rw [if_pos h1]
      exact iff_of_true rfl h1
    · rw [if_neg h1]
      refine iff_of_false ?_ h1
      by_cases h2 : p.away > p.home ∧ p.away > p.draw
      · rw [if_pos h2]
        intro hcon
        simp only [WinnerInfo.mk.injEq] at hcon
        exact absurd hcon.2.2 (by decide)
      · rw [if_neg h2]
        intro hcon
        simp only [WinnerInfo.mk.injEq] at hcon
        exact Option.noConfusion hcon.1
  · by_cases h1 : p.home > p.away ∧ p.home > p.draw
    · rw [if_pos h1]
      refine iff_of_false ?_ (fun hcon => hcon.1 h1)
      intro hcon
      simp only [WinnerInfo.mk.injEq] at hcon
      exact absurd hcon.2.2 (by decide)
    · rw [if_neg h1]
      by_cases h2 : p.away > p.home ∧ p.away > p.draw
      · rw [if_pos h2]
        exact iff_of_true rfl ⟨h1, h2⟩
      · rw [if_neg h2]
        refine iff_of_false ?_ (fun hcon => h2 hcon.2)
        intro hcon
        simp only [WinnerInfo.mk.injEq] at hcon
        exact Option.noConfusion hcon.1
  · by_cases h1 : p.home > p.away ∧ p.home > p.draw
    · rw [if_pos h1]
      refine iff_of_false ?_ (fun hcon => hcon.1 h1)
      intro hcon
      simp only [WinnerInfo.mk.injEq] at hcon
      exact Option.noConfusion hcon.1
    · rw [if_neg h1]
      by_cases h2 : p.away > p.home ∧ p.away > p.draw
      · rw [if_pos h2]
        refine iff_of_false ?_ (fun hcon => hcon.2 h2)
        intro hcon
        simp only [WinnerInfo.mk.injEq] at hcon
        exact Option.noConfusion hcon.1
      · rw [if_neg h2]
        exact iff_of_true rfl ⟨h1, h2⟩
  · intro htie
    have hc1 : ¬(p.home > p.away ∧ p.home > p.draw) := by
      rcases htie with ⟨h, h'⟩ | ⟨h, h'⟩ | ⟨h, h'⟩ <;> rintro ⟨ha, hb⟩ <;> linarith
    have hc2 : ¬(p.away > p.home ∧ p.away > p.draw) := by
      rcases htie with ⟨h, h'⟩ | ⟨h, h'⟩ | ⟨h, h'⟩ <;> rintro ⟨ha, hb⟩ <;> linarith
    rw [if_neg hc1, if_neg hc2]

end EloPredictions

namespace EloPredictions

/-- With a 100-point away advantage, the home bonus exactly cancels the
rating difference and the home expected score is one half. -/
lemma calculateExpectedScore_1400_1500 :
    calculateExpectedScore 1400 1500 true = 1 / 2 := by
  unfold calculateExpectedScore DEFAULT_ELO_CONFIG
  dsimp only
  rw [if_pos rfl]
  rw [show ((1500:ℝ) - (1400 + 100)) / 400 = (0 : ℝ) by norm_num]
  rw [Real.rpow_zero]
  norm_num

/-- Witness for C6: at ratings 1400 (home) vs 1500 (away) the home and away
probabilities tie, and the winner is Draw, obtained by instantiating the
winner-selection theorem. -/
theorem generatePrediction_winner_selection_witness :
    (generatePrediction 1 "H" 1400 2 "A" 1500).winner =
      ⟨none, "Draw", "Teams are closely matched based on ELO ratings"⟩ := by
  apply (generatePrediction_winner_selection 1 "H" 1400 2 "A" 1500).2.2.2
  left
  rw [calculateWinProbabilities_eq, calculateExpectedScore_1400_1500]
  dsimp only
  have habs : |(1400:ℝ) - 1500| = 100 := by
    rw [show ((1400:ℝ) - 1500) = -100 by norm_num, abs_neg,
      abs_of_nonneg (by norm_num : (0:ℝ) ≤ 100)]
  rw [habs]
  have hd : max (0.15:ℝ) (min 0.35 (0.30 - 100 / 1000)) = 0.2 := by
    rw [show (0.30:ℝ) - 100 / 1000 = 0.2 by norm_num,
      min_eq_right (by norm_num : (0.2:ℝ) ≤ 0.35),
      max_eq_right (by norm_num : (0.15:ℝ) ≤ 0.2)]
  rw [hd]
  constructor
  · ring
  · norm_num

/-- The sum of the two symmetric `[0.5, 4.0]` clamps in `predictGoals` never
falls below the unclamped total 2.7. -/
lemma predictGoals_total_ge (hr ar : ℝ) :
    27 / 10 ≤ (predictGoals hr ar).home + (predictGoals hr ar).away := by
  unfold predictGoals
  dsimp only
  set u := (2.7:ℝ) / 2 + (hr - ar) / 200 * 0.5 with hu
  set v := (2.7:ℝ) / 2 + -((hr - ar) / 200) * 0.5 with hv
  have huv : u + v = 27 / 10 := by rw [hu, hv]; ring
  rcases le_total u 4.0 with h1 | h1
  · rcases le_total v 4.0 with h2 | h2
    · have hu' : u ≤ max 0.5 (min 4.0 u) := by
        rw [min_eq_right h1]; exact le_max_right _ _
      have hv' : v ≤ max 0.5 (min 4.0 v) := by
        rw [min_eq_right h2]; exact le_max_right _ _
      linarith
    · have hv' : max 0.5 (min 4.0 v) = 4.0 := by
        rw [min_eq_left h2, max_eq_right (by norm_num : (0.5:ℝ) ≤ 4.0)]
      have hu' : (0.5:ℝ) ≤ max 0.5 (min 4.0 u) := le_max_left _ _
      rw [hv']
      linarith
  · have hu' : max 0.5 (min 4.0 u) = 4.0 := by
      rw [min_eq_left h1, max_eq_right (by norm_num : (0.5:ℝ) ≤ 4.0)]
    have hv' : (0.5:ℝ) ≤ max 0.5 (min 4.0 v) := le_max_left _ _
    rw [hu']
    linarith

/-- C7: `generatePrediction` always returns `under_over = "Over 2.5"`: with
the default league average 2.7 the two clamped goal predictions always sum to
at least 2.7, which exceeds the 2.5 threshold. -/
theorem generatePrediction_always_over (hid : ℤ) (hname : String) (hr : ℝ)
    (aid : ℤ) (aname : String) (ar : ℝ) :
    (generatePrediction hid hname hr aid aname ar).under_over = some "Over 2.5" := by
  unfold generatePrediction
  dsimp only
  rw [if_pos (by have := predictGoals_total_ge hr ar; linarith :
    (predictGoals hr ar).home + (predictGoals hr ar).away > 2.5)]

end EloPredictions

namespace PoissonOdds

/-- `factorial` of poisson-odds.ts (`n <= 1` returning 1 coincides with the
usual recursion). -/
def factorial : ℕ → ℕ
  | 0 => 1
  | n + 1 => (n + 1) * factorial n

/-- `factorial` is positive. -/
lemma factorial_pos (n : ℕ) : 0 < factorial n := by
  induction n with
  | zero => exact Nat.one_pos
  | succ n ih => exact Nat.mul_pos (Nat.succ_pos n) ih

/-- `poissonProbability` of poisson-odds.ts: `λ^k * e^(-λ) / k!`. -/
noncomputable def poissonProbability (lambda : ℝ) (k : ℕ) : ℝ :=
  lambda ^ k * Real.exp (-lambda) / factorial k

/-- Poisson terms are nonnegative for nonnegative rate. -/
lemma poissonProbability_nonneg (lambda : ℝ) (hl : 0 ≤ lambda) (k : ℕ) :
    0 ≤ poissonProbability lambda k :=
  div_nonneg (mul_nonneg (pow_nonneg hl k) (Real.exp_pos _).le) (Nat.cast_nonneg _)

/-- The `k = 0` Poisson term is strictly positive for any rate. -/
lemma poissonProbability_zero_pos (lambda : ℝ) : 0 < poissonProbability lambda 0 := by
  unfold poissonProbability factorial
  norm_num
  exact Real.exp_pos _

/-- Return value of `calculateMatchProbabilities`. -/
structure MatchProbs where
  homeWin : ℝ
  draw : ℝ
  awayWin : ℝ

/-- `calculateMatchProbabilities` of poisson-odds.ts: the double loop over all
score combinations `0..maxGoals` accumulating into three buckets is embedded
as three double finite sums (each combination lands in exactly one bucket),
followed by the normalization step dividing by the accumulated total. -/
noncomputable def calculateMatchProbabilities (homeExpectedGoals awayExpectedGoals : ℝ)
    (maxGoals : ℕ := 10) : MatchProbs :=
  let homeWin := ∑ homeGoals ∈ Finset.range (maxGoals + 1),
    ∑ awayGoals ∈ Finset.range (maxGoals + 1),
      if awayGoals < homeGoals then
        poissonProbability homeExpectedGoals homeGoals *
          poissonProbability awayExpectedGoals awayGoals
      else 0
  let draw := ∑ homeGoals ∈ Finset.range (maxGoals + 1),
    ∑ awayGoals ∈ Finset.range (maxGoals + 1),
      if homeGoals = awayGoals then
        poissonProbability homeExpectedGoals homeGoals *
          poissonProbability awayExpectedGoals awayGoals
      else 0
  let awayWin := ∑ homeGoals ∈ Finset.range (maxGoals + 1),
    ∑ awayGoals ∈ Finset.range (maxGoals + 1),
      if homeGoals < awayGoals then
        poissonProbability homeExpectedGoals homeGoals *
          poissonProbability awayExpectedGoals awayGoals
      else 0
  let total := homeWin + draw + awayWin
  ⟨homeWin / total, draw / total, awayWin / total⟩

/-- C3: for positive expected goals, the three probabilities returned by
`calculateMatchProbabilities` sum to exactly 1 in exact real arithmetic:
each accumulated bucket is divided by the total accumulated mass, which is
strictly positive. -/
theorem calculateMatchProbabilities_sum_one (h a : ℝ) (maxGoals : ℕ)
    (hh : 0 < h) (ha : 0 < a) :
    (calculateMatchProbabilities h a maxGoals).homeWin +
      (calculateMatchProbabilities h a maxGoals).draw +
      (calculateMatchProbabilities h a maxGoals).awayWin = 1 := by
  unfold calculateMatchProbabilities
  dsimp only
  have key : ∀ i j : ℕ,
      ((if j < i then poissonProbability h i * poissonProbability a j else 0) +
        (if i = j then poissonProbability h i * poissonProbability a j else 0)) +
        (if i < j then poissonProbability h i * poissonProbability a j else 0) =
      poissonProbability h i * poissonProbability a j := by
    intro i j
    rcases lt_trichotomy i j with hij | hij | hij
    · rw [if_neg (by omega), if_neg (by omega), if_pos hij]
      ring
    · rw [if_neg (by omega), if_pos hij, if_neg (by omega)]
      ring
    · rw [if_pos hij, if_neg (by omega), if_neg (by omega)]
      ring
  have hsum : ((∑ i ∈ Finset.range (maxGoals + 1), ∑ j ∈ Finset.range (maxGoals + 1),
        if j < i then poissonProbability h i * poissonProbability a j else 0) +
      (∑ i ∈ Finset.range (maxGoals + 1), ∑ j ∈ Finset.range (maxGoals + 1),
        if i = j then poissonProbability h i * poissonProbability a j else 0)) +
      (∑ i ∈ Finset.range (maxGoals + 1), ∑ j ∈ Finset.range (maxGoals + 1),
        if i < j then poissonProbability h i * poissonProbability a j else 0) =
      ∑ i ∈ Finset.range (maxGoals + 1), ∑ j ∈ Finset.range (maxGoals + 1),
        poissonProbability h i * poissonProbability a j := by
    rw [← Finset.sum_add_distrib, ← Finset.sum_add_distrib]
    refine Finset.sum_congr rfl fun i _ => ?_
    rw [← Finset.sum_add_distrib, ← Finset.sum_add_distrib]
    exact Finset.sum_congr rfl fun j _ => key i j
  have hnn : ∀ i j : ℕ, 0 ≤ poissonProbability h i * poissonProbability a j :=
    fun i j => mul_nonneg (poissonProbability_nonneg h hh.le i)
      (poissonProbability_nonneg a ha.le j)
  have hmem : (0:ℕ) ∈ Finset.range (maxGoals + 1) := Finset.mem_range.mpr (Nat.succ_pos _)
  have hpos : 0 < ∑ i ∈ Finset.range (maxGoals + 1), ∑ j ∈ Finset.range (maxGoals + 1),
      poissonProbability h i * poissonProbability a j := by
    calc (0:ℝ) < poissonProbability h 0 * poissonProbability a 0 :=
          mul_pos (poissonProbability_zero_pos h) (poissonProbability_zero_pos a)
    _ ≤ ∑ j ∈ Finset.range (maxGoals + 1), poissonProbability h 0 * poissonProbability a j :=
          Finset.single_le_sum (fun j _ => hnn 0 j) hmem
    _ ≤ ∑ i ∈ Finset.range (maxGoals + 1), ∑ j ∈ Finset.range (maxGoals + 1),
          poissonProbability h i * poissonProbability a j :=
          Finset.single_le_sum
            (fun i _ => Finset.sum_nonneg fun j _ => hnn i j) hmem
  rw [div_add_div_same, div_add_div_same, hsum, div_self (ne_of_gt hpos)]

/-- Witness for C3: at expected goals 1 and 1 with the default grid of 10,
the three probabilities sum to 1. -/
theorem calculateMatchProbabilities_sum_one_witness :
    (calculateMatchProbabilities 1 1 10).homeWin +
      (calculateMatchProbabilities 1 1 10).draw +
      (calculateMatchProbabilities 1 1 10).awayWin = 1 :=
  calculateMatchProbabilities_sum_one 1 1 10 (by norm_num) (by norm_num)

end PoissonOdds
